import Mathlib

/-!
Shallow embedding of `src/main.rs` of the `cli_weather_api` repository:
an interactive CLI weather client.  Rust `f64` fields carry JSON-decoded
finite decimal numbers and are only compared against integer constants and
rendered, so they are modelled as `ℚ`; Rust `String` is modelled as Lean
`String` (`trim`/`toUpper` model the Rust ASCII behaviour used here).
Terminal styling from the `colored` crate is modelled abstractly as a
colour tag plus a bold flag on each emitted text segment.
-/

/-- Colour/style tags produced by the `colored` crate calls appearing in the
source (`cyan()`, `blue()`, `bright_green()`, `yellow()`, `red()`,
`bright_yellow()`, `bright_blue()`, `bright_cyan()`, `dimmed()`, `white()`,
`bright_white()`, `green()`, `normal()`). `default` is unstyled text. -/
inductive Color where
  | default
  | cyan
  | blue
  | green
  | brightGreen
  | yellow
  | red
  | white
  | brightWhite
  | brightYellow
  | brightBlue
  | brightCyan
  | dimmed
deriving DecidableEq, Repr

/-- Model of the `colored` crate's `ColoredString`: a text with a colour tag
and a bold flag. -/
structure ColoredString where
  text : String
  color : Color
  bold : Bool
deriving DecidableEq, Repr

/-- Unstyled text, as produced by string literals in `format!`/`println!`
and by `.normal()`. -/
def ColoredString.plain (s : String) : ColoredString :=
  ⟨s, Color.default, false⟩

/-- Decimal digits of the fractional part `r / d`, with fuel bounding the
number of digits (terminating decimals of JSON-decoded doubles are short). -/
def fracDigits : Nat → Nat → Nat → String
  | 0, _, _ => ""
  | _, 0, _ => ""
  | fuel + 1, r, d =>
    let r10 := r * 10
    toString (r10 / d) ++ fracDigits fuel (r10 % d) d

/-- Modelled from the spec: Rust's `Display` for `f64` (standard library,
outside this repository), which renders e.g. `22.5` as `"22.5"` and
`1013.0` as `"1013"`; here rendered from the rational value, dropping the
fractional part when it is zero. -/
def fmtF64 (q : ℚ) : String :=
  let sign := if q < 0 then "-" else ""
  let n := q.num.natAbs
  let d := q.den
  let ip := toString (n / d)
  let r := n % d
  if r = 0 then sign ++ ip else sign ++ ip ++ "." ++ fracDigits 17 r d

/-- Whitespace test for trimming, as Rust's `char::is_whitespace` behaves on
the ASCII whitespace relevant to terminal input. -/
def isWsChar (c : Char) : Bool :=
  c = ' ' || c = '\t' || c = '\n' || c = '\r'

/-- Model of Rust's `str::trim`: drop whitespace from both ends. -/
def trimStr (s : String) : String :=
  ⟨((s.data.dropWhile isWsChar).reverse.dropWhile isWsChar).reverse⟩

/-- Model of Rust's `str::to_uppercase` on the ASCII city names at hand:
uppercase every character. -/
def toUpperStr (s : String) : String :=
  ⟨s.data.map Char.toUpper⟩

/-- Struct `Weather` of `main.rs`: one weather condition. -/
structure Weather where
  description : String
deriving DecidableEq, Repr

/-- Struct `Main` of `main.rs`: the numeric block of a response. -/
structure Main where
  temp : ℚ
  pressure : ℚ
  humidity : ℚ
deriving DecidableEq, Repr

/-- Struct `Wind` of `main.rs`. -/
structure Wind where
  speed : ℚ
deriving DecidableEq, Repr

/-- Struct `WeatherResponse` of `main.rs`: the decoded JSON body. -/
structure WeatherResponse where
  weather : List Weather
  main : Main
  wind : Wind
  name : String
deriving DecidableEq, Repr

/-- Embedding of `get_temp_emoji` (main.rs lines 72-84): ascending
strict-upper-bound chain selecting colour and emoji suffix for the
temperature. -/
def get_temp_emoji (temp : ℚ) : ColoredString :=
  if temp < 0 then ⟨fmtF64 temp ++ "°C 🫢", Color.cyan, false⟩
  else if temp < 10 then ⟨fmtF64 temp ++ "°C 🥶", Color.blue, false⟩
  else if temp < 20 then ⟨fmtF64 temp ++ "°C 😊", Color.brightGreen, false⟩
  else if temp < 30 then ⟨fmtF64 temp ++ "°C 🌞", Color.yellow, false⟩
  else ⟨fmtF64 temp ++ "°C 🔥", Color.red, false⟩

/-- Embedding of `get_description_emoji_and_color` (main.rs lines 86-102):
a `match` on the description string, one arm per known phrase, in source
order; the wildcard arm returns the description unstyled with no emoji. -/
def get_description_emoji_and_color (description : String) : ColoredString :=
  if description = "clear sky" then ⟨description ++ " 🌄", Color.brightYellow, false⟩
  else if description = "few clouds" then ⟨description ++ " 🌤️", Color.brightBlue, false⟩
  else if description = "overcast clouds" then ⟨description ++ " 🌤️", Color.brightBlue, false⟩
  else if description = "scattered clouds" then ⟨description ++ " 🌥️", Color.brightBlue, false⟩
  else if description = "broken clouds" then ⟨description ++ " 🌫️", Color.brightBlue, false⟩
  else if description = "shower rain" then ⟨description ++ " 🌧️", Color.brightCyan, false⟩
  else if description = "light rain" then ⟨description ++ " 🌧️", Color.brightCyan, false⟩
  else if description = "light snow" then ⟨description ++ " 🌨️", Color.brightCyan, false⟩
  else if description = "rain" then ⟨description ++ " 🌧️", Color.brightCyan, false⟩
  else if description = "thunderstorm" then ⟨description ++ " ⛈️", Color.brightCyan, false⟩
  else if description = "snow" then ⟨description ++ " 🌨️", Color.brightCyan, false⟩
  else if description = "mist" then ⟨description ++ " 🌫️", Color.dimmed, false⟩
  else ⟨description, Color.default, false⟩

/-- Decision core of `is_repeat` (main.rs lines 129-136), applied to the
line read from standard input: trim it and compare with the literal `"y"`. -/
def is_repeat (choice : String) : Bool :=
  trimStr choice == "y"

/-- Mirror of `std::env::VarError`. -/
inductive VarError where
  | notPresent
  | notUnicode
deriving DecidableEq, Repr

/-- Modelled from the spec (sections 4.3 and 7): the two failure kinds of the
fetch, `reqwest::Error` in the source, carrying the underlying cause as the
string its `Display` implementation produces. -/
inductive FetchErr where
  | network (cause : String)
  | decode (cause : String)
deriving DecidableEq, Repr

/-- Modelled from the spec: the message text `reqwest::Error`'s `Display`
produces, i.e. the carried cause. -/
def fetchErrMsg : FetchErr → String
  | FetchErr.network cause => cause
  | FetchErr.decode cause => cause

/-- Observable events of one program run: a `println!` emission to standard
output (a list of styled segments, with the trailing newline made explicit
as a plain `"\n"` segment), an `eprintln!` line to standard error, and an
outgoing HTTP GET with its URL. -/
inductive Event where
  | out (segs : List ColoredString)
  | errLine (line : String)
  | net (url : String)
deriving DecidableEq, Repr

/-- Constant `API_NAME_KEY` of main.rs. -/
def API_NAME_KEY : String := "API_KEY"

/-- Text of the error message printed by `get_api_key` when the variable is
absent: `VarError::NotPresent` displays as "environment variable not found",
uppercased by the source before interpolation. -/
def apiKeyErrText : String :=
  "ENVIRONMENT VARIABLE NOT FOUND: " ++ API_NAME_KEY ++
    " is not set in .env file. Visit openweathermap.org to get an API key."

/-- Embedding of `get_api_key` (main.rs lines 138-157).  The process
environment after the `dotenv::dotenv().ok()` call is the input: `some v`
when `API_KEY` is set to `v`, `none` when it is absent.  Returns the
`Result` together with the events printed. -/
def get_api_key (env : Option String) : Except VarError String × List Event :=
  match env with
  | some key => (Except.ok key, [])
  | none =>
      (Except.error VarError.notPresent,
       [Event.out [⟨apiKeyErrText, Color.red, false⟩, ColoredString.plain "\n"]])

/-- URL built by `get_weather_info` (main.rs lines 32-43) with `format!`:
the interpolation slots are filled verbatim, with no escaping. -/
def get_weather_url (city country_code api_key : String) : String :=
  "http://api.openweathermap.org/data/2.5/weather?q=" ++ city ++ "," ++
    country_code ++ "&appid=" ++ api_key ++ "&units=metric"

/-- Embedding of `print_weather_info` (main.rs lines 45-70) as the list of
styled segments written to standard output, one plain `"\n"` segment per
newline.  Indexing `weather[0]` on an empty `weather` vector panics in
Rust; that is modelled as `none`. -/
def print_weather_info (weather_info : WeatherResponse) : Option (List ColoredString) :=
  match weather_info.weather with
  | [] => none
  | w0 :: _ =>
      some
        ([ColoredString.plain "\n\n",
          ⟨toUpperStr weather_info.name, Color.brightWhite, true⟩,
          ColoredString.plain "\n", ColoredString.plain "\n"] ++
         [ColoredString.plain "> Weather: ",
          get_description_emoji_and_color w0.description,
          ColoredString.plain "\n"] ++
         [ColoredString.plain "> Temperature: ",
          get_temp_emoji weather_info.main.temp,
          ColoredString.plain "\n"] ++
         [ColoredString.plain "> Pressure: ",
          ⟨fmtF64 weather_info.main.pressure, Color.green, true⟩,
          ColoredString.plain " hPa", ColoredString.plain "\n"] ++
         [ColoredString.plain "> Humidity: ",
          ⟨fmtF64 weather_info.main.humidity, Color.green, true⟩,
          ColoredString.plain "%", ColoredString.plain "\n"] ++
         [ColoredString.plain "> Wind speed: ",
          ⟨fmtF64 weather_info.wind.speed, Color.green, true⟩,
          ColoredString.plain " m/s", ColoredString.plain "\n"] ++
         [ColoredString.plain "\n", ColoredString.plain "\n"])

/-- Prompt printed by `get_city_name` (main.rs line 107), styled `.white()`. -/
def cityPrompt : ColoredString := ⟨"Enter city name: ", Color.white, false⟩

/-- Prompt printed by `get_country_code` (main.rs line 120). -/
def countryPrompt : ColoredString := ⟨"Enter country code: ", Color.white, false⟩

/-- Prompt printed by `is_repeat` (main.rs line 130), unstyled. -/
def repeatPrompt : ColoredString :=
  ColoredString.plain "Do you want to get weather info for another city? (y/n)"

/-- Shared loop body of `get_city_name` and `get_country_code` (main.rs
lines 104-127): print the prompt, read a line, trim, repeat while empty.
Standard input is the list of remaining lines; `none` models blocking
forever on exhausted input.  Returns the accepted value, the remaining
input, and the prompt events printed. -/
def readLoop (p : ColoredString) : List String → Option (String × List String × List Event)
  | [] => none
  | line :: rest =>
      let t := trimStr line
      if t = "" then
        match readLoop p rest with
        | none => none
        | some (v, stdin', evs) =>
            some (v, stdin', Event.out [p, ColoredString.plain "\n"] :: evs)
      else some (t, rest, [Event.out [p, ColoredString.plain "\n"]])

/-- Control states of `main` (main.rs lines 159-186), following the spec's
section 4.5 state machine, plus a `panicked` state for the unguarded
`weather[0]` indexing. -/
inductive Phase where
  | loadingCredentials (env : Option String)
  | prompting
  | fetching (city country_code : String)
  | presenting (response : WeatherResponse)
  | askingRepeat
  | terminated
  | panicked
deriving DecidableEq, Repr

deriving instance DecidableEq for Except

/-- One configuration of the running program: the captured API key, the
control state, the remaining standard-input lines, the oracle of results of
the successive HTTP fetches, and the events emitted so far. -/
structure Config where
  key : String
  phase : Phase
  stdin : List String
  fetches : List (Except FetchErr WeatherResponse)
  out : List Event
deriving DecidableEq, Repr

/-- Initial configuration of `main` under a given environment, standard
input, and fetch oracle. -/
def initConfig (env : Option String) (stdin : List String)
    (fetches : List (Except FetchErr WeatherResponse)) : Config :=
  ⟨"", Phase.loadingCredentials env, stdin, fetches, []⟩

/-- One step of `main` (main.rs lines 159-186).  `none` models blocking
forever on exhausted input; the two final states step to themselves. -/
def step (c : Config) : Option Config :=
  match c.phase with
  | Phase.loadingCredentials env =>
      let r := get_api_key env
      let key := match r.1 with
        | Except.ok k => k
        | Except.error _ => ""
      if key = "" then
        some { c with key := key, phase := Phase.terminated, out := c.out ++ r.2 }
      else
        some { c with key := key, phase := Phase.prompting, out := c.out ++ r.2 }
  | Phase.prompting =>
      match readLoop cityPrompt c.stdin with
      | none => none
      | some (city, stdin1, evs1) =>
          match readLoop countryPrompt stdin1 with
          | none => none
          | some (cc, stdin2, evs2) =>
              some { c with phase := Phase.fetching city cc, stdin := stdin2,
                            out := c.out ++ evs1 ++ evs2 }
  | Phase.fetching city cc =>
      match c.fetches with
      | [] => none
      | fr :: rest =>
          let netEv := Event.net (get_weather_url city cc c.key)
          match fr with
          | Except.ok response =>
              some { c with phase := Phase.presenting response, fetches := rest,
                            out := c.out ++ [netEv] }
          | Except.error e =>
              some { c with phase := Phase.askingRepeat, fetches := rest,
                            out := c.out ++ [netEv,
                              Event.errLine ("Error: " ++ fetchErrMsg e)] }
  | Phase.presenting response =>
      match print_weather_info response with
      | none => some { c with phase := Phase.panicked }
      | some segs =>
          some { c with phase := Phase.askingRepeat, out := c.out ++ [Event.out segs] }
  | Phase.askingRepeat =>
      match c.stdin with
      | [] => none
      | line :: rest =>
          let ev := Event.out [repeatPrompt, ColoredString.plain "\n"]
          if is_repeat line then
            some { c with phase := Phase.prompting, stdin := rest, out := c.out ++ [ev] }
          else
            some { c with phase := Phase.terminated, stdin := rest, out := c.out ++ [ev] }
  | Phase.terminated => some c
  | Phase.panicked => some c

/-- Iterate `step` for `n` steps, staying put when a step blocks. -/
def run : Nat → Config → Config
  | 0, c => c
  | n + 1, c =>
      match step c with
      | none => c
      | some c' => run n c'

/-! Spec-side definitions, written from the specification's words, to be
compared with the embeddings above. -/

/-- The five temperature bands of the spec's section 4.4 table. -/
inductive TempBand where
  | freezing
  | cold
  | mild
  | warm
  | hot
deriving DecidableEq, Repr

/-- Band selection as the spec words it: boundary values fall into the
higher band, i.e. a descending chain of `≥` tests. -/
def temp_band_spec (t : ℚ) : TempBand :=
  if 30 ≤ t then TempBand.hot
  else if 20 ≤ t then TempBand.warm
  else if 10 ≤ t then TempBand.mild
  else if 0 ≤ t then TempBand.cold
  else TempBand.freezing

/-- Style and emoji suffix the spec's section 4.4 table assigns to each
band. -/
def temp_band_render (b : TempBand) (t : ℚ) : ColoredString :=
  match b with
  | TempBand.freezing => ⟨fmtF64 t ++ "°C 🫢", Color.cyan, false⟩
  | TempBand.cold => ⟨fmtF64 t ++ "°C 🥶", Color.blue, false⟩
  | TempBand.mild => ⟨fmtF64 t ++ "°C 😊", Color.brightGreen, false⟩
  | TempBand.warm => ⟨fmtF64 t ++ "°C 🌞", Color.yellow, false⟩
  | TempBand.hot => ⟨fmtF64 t ++ "°C 🔥", Color.red, false⟩

/-- The spec's static description table (section 4.4): the 12 known
lowercase phrases, each with its colour and emoji. -/
def descTable : List (String × Color × String) :=
  [("clear sky", Color.brightYellow, "🌄"),
   ("few clouds", Color.brightBlue, "🌤️"),
   ("overcast clouds", Color.brightBlue, "🌤️"),
   ("scattered clouds", Color.brightBlue, "🌥️"),
   ("broken clouds", Color.brightBlue, "🌫️"),
   ("shower rain", Color.brightCyan, "🌧️"),
   ("light rain", Color.brightCyan, "🌧️"),
   ("light snow", Color.brightCyan, "🌨️"),
   ("rain", Color.brightCyan, "🌧️"),
   ("thunderstorm", Color.brightCyan, "⛈️"),
   ("snow", Color.brightCyan, "🌨️"),
   ("mist", Color.dimmed, "🌫️")]

/-- Exact, case-sensitive lookup in a description table. -/
def lookupDesc : List (String × Color × String) → String → Option (Color × String)
  | [], _ => none
  | (k, c, e) :: rest, s => if s = k then some (c, e) else lookupDesc rest s

/-- Description styling as the spec words it: a static-mapping lookup;
matched phrases get their emoji appended after a space and the mapped
colour, unmatched strings print unstyled with no emoji. -/
def desc_spec (s : String) : ColoredString :=
  match lookupDesc descTable s with
  | some (c, e) => ⟨s ++ " " ++ e, c, false⟩
  | none => ⟨s, Color.default, false⟩

/-- The provider endpoint named in the spec's section 6. -/
def weatherEndpoint : String := "http://api.openweathermap.org/data/2.5/weather"

/-- The query parameters the spec's section 6 prescribes, in order. -/
def queryParams (city country_code api_key : String) : List (String × String) :=
  [("q", city ++ "," ++ country_code), ("appid", api_key), ("units", "metric")]

/-- Join query parameters as `key=value` pairs separated by `&`. -/
def joinParams : List (String × String) → String
  | [] => ""
  | [p] => p.1 ++ "=" ++ p.2
  | p :: q :: rest => p.1 ++ "=" ++ p.2 ++ "&" ++ joinParams (q :: rest)

/-- A URL from a base endpoint and query parameters. -/
def urlOfParams (base : String) (ps : List (String × String)) : String :=
  base ++ "?" ++ joinParams ps

/-! Line structure of emitted text, for the output-layout claim. -/

/-- The character stream a list of styled segments writes to the terminal,
styling aside. -/
def textOfSegs (segs : List ColoredString) : List Char :=
  (segs.map fun s => s.text.data).flatten

/-- Split a character stream at newline characters; the newlines are
dropped and every stream yields at least one (possibly empty) line. -/
def splitNl : List Char → List (List Char)
  | [] => [[]]
  | c :: cs =>
      if c = '\n' then [] :: splitNl cs
      else
        match splitNl cs with
        | [] => [[c]]
        | l :: ls => (c :: l) :: ls

/-- Prepend a prefix onto the first line of a line list. -/
def consHead (a : List Char) : List (List Char) → List (List Char)
  | [] => [a]
  | l :: ls => (a ++ l) :: ls

/-- The terminal lines a list of styled segments produces. -/
def linesOfSegs (segs : List ColoredString) : List (List Char) :=
  splitNl (textOfSegs segs)

/-- Interleave newline characters between lines (inverse of `splitNl` on
newline-free lines). -/
def mkText : List (List Char) → List Char
  | [] => []
  | [l] => l
  | l :: l' :: ls => l ++ '\n' :: mkText (l' :: ls)

/-- Recognise an outgoing-HTTP-request event. -/
def isNetEvent : Event → Bool
  | Event.net _ => true
  | _ => false

/-- Recognise the printing of one of the three interactive prompts. -/
def isPromptEvent (e : Event) : Bool :=
  decide (e = Event.out [cityPrompt, ColoredString.plain "\n"]) ||
  decide (e = Event.out [countryPrompt, ColoredString.plain "\n"]) ||
  decide (e = Event.out [repeatPrompt, ColoredString.plain "\n"])

/-- Count the lines of a printed block that carry a `"> "` prefix. -/
def promptedLineCount (segs : List ColoredString) : Nat :=
  (linesOfSegs segs).countP fun l => l.take 2 == ['>', ' ']

/-- C1: for every temperature, `get_temp_emoji` renders exactly the band
the spec's descending `≥` chain selects; each band is characterised by its
half-open interval, so every temperature lies in exactly one band, and the
boundary values 0, 10, 20, 30 fall into the higher band (in particular
`t = 0` gets the `🥶` band, not `🫢`). -/
theorem c1_temp_bands :
    (∀ t : ℚ, get_temp_emoji t = temp_band_render (temp_band_spec t) t) ∧
    (∀ t : ℚ,
      (temp_band_spec t = TempBand.freezing ↔ t < 0) ∧
      (temp_band_spec t = TempBand.cold ↔ 0 ≤ t ∧ t < 10) ∧
      (temp_band_spec t = TempBand.mild ↔ 10 ≤ t ∧ t < 20) ∧
      (temp_band_spec t = TempBand.warm ↔ 20 ≤ t ∧ t < 30) ∧
      (temp_band_spec t = TempBand.hot ↔ 30 ≤ t)) ∧
    temp_band_spec 0 = TempBand.cold ∧ temp_band_spec 10 = TempBand.mild ∧
    temp_band_spec 20 = TempBand.warm ∧ temp_band_spec 30 = TempBand.hot := by
  refine ⟨fun t => ?_, fun t => ?_, by decide, by decide, by decide, by decide⟩
  · simp only [get_temp_emoji, temp_band_spec]
    split_ifs <;> first | rfl | linarith
  · simp only [temp_band_spec]
    split_ifs <;>
      refine ⟨?_, ?_, ?_, ?_, ?_⟩ <;>
      simp <;>
      first
        | linarith
        | (constructor <;> linarith)
        | (intro h; linarith)

/-- C2: `get_description_emoji_and_color` coincides with the spec's static
description table on every string: each of the 12 known lowercase phrases
gets exactly the tabulated colour and emoji, by exact case-sensitive match,
and every other string comes back unstyled with no emoji appended. -/
theorem c2_description_table :
    ∀ s : String, get_description_emoji_and_color s = desc_spec s := by
  intro s
  by_cases h1 : s = "clear sky"
  · subst h1; rfl
  by_cases h2 : s = "few clouds"
  · subst h2; rfl
  by_cases h3 : s = "overcast clouds"
  · subst h3; rfl
  by_cases h4 : s = "scattered clouds"
  · subst h4; rfl
  by_cases h5 : s = "broken clouds"
  · subst h5; rfl
  by_cases h6 : s = "shower rain"
  · subst h6; rfl
  by_cases h7 : s = "light rain"
  · subst h7; rfl
  by_cases h8 : s = "light snow"
  · subst h8; rfl
  by_cases h9 : s = "rain"
  · subst h9; rfl
  by_cases h10 : s = "thunderstorm"
  · subst h10; rfl
  by_cases h11 : s = "snow"
  · subst h11; rfl
  by_cases h12 : s = "mist"
  · subst h12; rfl
  simp only [get_description_emoji_and_color, desc_spec, descTable, lookupDesc,
    h1, h2, h3, h4, h5, h6, h7, h8, h9, h10, h11, h12, ite_false]

/-- C3: the repeat-choice decision is true exactly when the trimmed input
line is the literal `"y"`; in particular `"Y"`, `"yes"`, `""` and `"n"`
all yield false. -/
theorem c3_repeat_choice :
    (∀ input : String, is_repeat input = true ↔ trimStr input = "y") ∧
    is_repeat "Y" = false ∧ is_repeat "yes" = false ∧
    is_repeat "" = false ∧ is_repeat "n" = false := by
  refine ⟨fun input => ?_, rfl, rfl, rfl, rfl⟩
  simp [is_repeat]

/-- C4 counterexample: with `API_KEY` set to the empty string the loader
succeeds and the returned key is empty, so success does not imply a
non-empty key. -/
theorem c4_counterexample :
    (get_api_key (some "")).1 = Except.ok "" ∧ ("" : String).isEmpty = true :=
  ⟨rfl, rfl⟩

/-- C4 amended: whenever the credential loader succeeds, the returned
string is exactly the environment variable's value — which may be empty —
and the loader fails precisely when the variable is absent. -/
theorem c4_amended_key_value :
    (∀ v : String, (get_api_key (some v)).1 = Except.ok v) ∧
    (get_api_key none).1 = Except.error VarError.notPresent :=
  ⟨fun _ => rfl, rfl⟩

/-- C7: the URL `get_weather_info` builds is exactly the spec's endpoint
`http://api.openweathermap.org/data/2.5/weather` with the query parameters
`q={city},{country_code}`, `appid={api_key}`, `units=metric`, the city and
country strings inserted verbatim (no escaping performed by the program). -/
theorem c7_request_url :
    ∀ city country_code api_key : String,
      get_weather_url city country_code api_key =
        urlOfParams weatherEndpoint (queryParams city country_code api_key) := by
  intro city country_code api_key
  simp only [get_weather_url, urlOfParams, queryParams, joinParams, weatherEndpoint,
    String.append_assoc]
  rfl

/-- C9: whenever the decoded record's conditions list is non-empty, the
presentation function's `weather[0]` indexing is in bounds and printing
completes normally (returns a value rather than the panic marker). -/
theorem c9_print_never_fails :
    ∀ r : WeatherResponse, r.weather ≠ [] → (print_weather_info r).isSome := by
  intro r h
  cases hw : r.weather with
  | nil => exact absurd hw h
  | cons w0 rest => simp [print_weather_info, hw]

/-- C9 witness: the round-trip record of the spec's section 8 prints. -/
theorem c9_print_never_fails_witness :
    (print_weather_info ⟨[⟨"clear sky"⟩], ⟨22.5, 1013, 60⟩, ⟨3.4⟩, "lisbon"⟩).isSome :=
  c9_print_never_fails ⟨[⟨"clear sky"⟩], ⟨22.5, 1013, 60⟩, ⟨3.4⟩, "lisbon"⟩
    (List.cons_ne_nil _ _)

/-- Once terminated, the loop state never changes again. -/
theorem run_stays_terminated (n : Nat) (c : Config) (h : c.phase = Phase.terminated) :
    run n c = c := by
  induction n with
  | zero => rfl
  | succ n ih =>
      have hs : step c = some c := by simp [step, h]
      simp [run, hs, ih]

/-- C5: if `API_KEY` is absent, the whole run — however many steps are
taken — prints exactly the red error message naming the variable,
terminates, issues no network request, and shows no prompt. -/
theorem c5_missing_credential :
    ∀ (n : Nat) (stdin : List String) (fetches : List (Except FetchErr WeatherResponse)),
      run (n + 1) (initConfig none stdin fetches) =
        { key := "", phase := Phase.terminated, stdin := stdin, fetches := fetches,
          out := [Event.out [⟨apiKeyErrText, Color.red, false⟩, ColoredString.plain "\n"]] } ∧
      (get_api_key none).1 = Except.error VarError.notPresent ∧
      (∃ a b, apiKeyErrText = a ++ API_NAME_KEY ++ b) ∧
      (run (n + 1) (initConfig none stdin fetches)).out.filter isNetEvent = [] ∧
      (run (n + 1) (initConfig none stdin fetches)).out.filter isPromptEvent = [] := by
  intro n stdin fetches
  have h1 : run (n + 1) (initConfig none stdin fetches) =
      run n { key := "", phase := Phase.terminated, stdin := stdin, fetches := fetches,
              out := [Event.out [⟨apiKeyErrText, Color.red, false⟩,
                                 ColoredString.plain "\n"]] } := rfl
  rw [h1, run_stays_terminated n _ rfl]
  exact ⟨rfl, rfl,
    ⟨"ENVIRONMENT VARIABLE NOT FOUND: ",
     " is not set in .env file. Visit openweathermap.org to get an API key.", rfl⟩,
    rfl, rfl⟩

/-- C10: if `API_KEY` is set to the empty string, the loader succeeds with
the empty string and prints nothing, and the whole run terminates with no
output at all — unlike the missing-variable case, which prints a message. -/
theorem c10_empty_key_silent_exit :
    ∀ (n : Nat) (stdin : List String) (fetches : List (Except FetchErr WeatherResponse)),
      run (n + 1) (initConfig (some "") stdin fetches) =
        { key := "", phase := Phase.terminated, stdin := stdin, fetches := fetches,
          out := [] } ∧
      (get_api_key (some "")).1 = Except.ok "" ∧
      (get_api_key (some "")).2 = [] ∧
      (get_api_key none).2 ≠ [] := by
  intro n stdin fetches
  have h1 : run (n + 1) (initConfig (some "") stdin fetches) =
      run n { key := "", phase := Phase.terminated, stdin := stdin, fetches := fetches,
              out := [] } := rfl
  rw [h1, run_stays_terminated n _ rfl]
  refine ⟨rfl, rfl, rfl, by simp [get_api_key]⟩

/-- C6: a failed fetch never terminates the loop: it appends the network
event and exactly one error line to standard error and moves to the
repeat prompt; a `"y"` answer there moves back to prompting, and the
prompting step then shows the city and country prompts. -/
theorem c6_fetch_failure_not_fatal :
    (∀ (key city cc : String) (e : FetchErr) (stdin : List String)
       (rest : List (Except FetchErr WeatherResponse)) (out : List Event),
      step ⟨key, Phase.fetching city cc, stdin, Except.error e :: rest, out⟩ =
        some ⟨key, Phase.askingRepeat, stdin, rest,
          out ++ [Event.net (get_weather_url city cc key),
                  Event.errLine ("Error: " ++ fetchErrMsg e)]⟩) ∧
    (∀ (key choice : String) (stdin2 : List String)
       (fetches : List (Except FetchErr WeatherResponse)) (out : List Event),
      is_repeat choice = true →
      step ⟨key, Phase.askingRepeat, choice :: stdin2, fetches, out⟩ =
        some ⟨key, Phase.prompting, stdin2, fetches,
          out ++ [Event.out [repeatPrompt, ColoredString.plain "\n"]]⟩) ∧
    (∀ (key cityLine ccLine : String) (stdin3 : List String)
       (fetches : List (Except FetchErr WeatherResponse)) (out : List Event),
      trimStr cityLine ≠ "" → trimStr ccLine ≠ "" →
      step ⟨key, Phase.prompting, cityLine :: ccLine :: stdin3, fetches, out⟩ =
        some ⟨key, Phase.fetching (trimStr cityLine) (trimStr ccLine), stdin3, fetches,
          out ++ [Event.out [cityPrompt, ColoredString.plain "\n"],
                  Event.out [countryPrompt, ColoredString.plain "\n"]]⟩) := by
  refine ⟨fun key city cc e stdin rest out => rfl,
          fun key choice stdin2 fetches out h => ?_,
          fun key cityLine ccLine stdin3 fetches out h1 h2 => ?_⟩
  · simp [step, h]
  · simp [step, readLoop, h1, h2]

/-- C6 witness: a concrete failing fetch followed by a `"y"` repeat choice
and fresh city/country input. -/
theorem c6_fetch_failure_not_fatal_witness :
    step ⟨"k", Phase.fetching "lisbon" "pt", ["y"],
          [Except.error (FetchErr.network "connection refused")], []⟩ =
      some ⟨"k", Phase.askingRepeat, ["y"], [],
        [Event.net (get_weather_url "lisbon" "pt" "k"),
         Event.errLine ("Error: " ++ fetchErrMsg (FetchErr.network "connection refused"))]⟩ ∧
    step ⟨"k", Phase.askingRepeat, ["y"], [], []⟩ =
      some ⟨"k", Phase.prompting, [], [],
        [Event.out [repeatPrompt, ColoredString.plain "\n"]]⟩ ∧
    step ⟨"k", Phase.prompting, ["lisbon", "pt"], [], []⟩ =
      some ⟨"k", Phase.fetching (trimStr "lisbon") (trimStr "pt"), [], [],
        [Event.out [cityPrompt, ColoredString.plain "\n"],
         Event.out [countryPrompt, ColoredString.plain "\n"]]⟩ :=
  ⟨c6_fetch_failure_not_fatal.1 "k" "lisbon" "pt" (FetchErr.network "connection refused")
      ["y"] [] [],
   c6_fetch_failure_not_fatal.2.1 "k" "y" [] [] [] (by decide),
   c6_fetch_failure_not_fatal.2.2 "k" "lisbon" "pt" [] [] [] (by decide) (by decide)⟩

/-- Splitting at newlines always yields at least one line. -/
theorem splitNl_ne_nil (l : List Char) : splitNl l ≠ [] := by
  induction l with
  | nil => simp [splitNl]
  | cons c cs ih =>
      simp only [splitNl]
      split_ifs
      · simp
      · cases h : splitNl cs with
        | nil => simp
        | cons a as => simp

/-- A newline-free stream is a single line. -/
theorem splitNl_no_newline (l : List Char) (h : '\n' ∉ l) : splitNl l = [l] := by
  induction l with
  | nil => rfl
  | cons c cs ih =>
      rw [List.mem_cons] at h
      push_neg at h
      obtain ⟨h1, h2⟩ := h
      simp only [splitNl]
      rw [if_neg fun e => h1 e.symm, ih h2]

/-- Prepending a newline-free block extends the first line. -/
theorem splitNl_append (a b : List Char) (h : '\n' ∉ a) :
    splitNl (a ++ b) = consHead a (splitNl b) := by
  induction a with
  | nil =>
      cases hb : splitNl b with
      | nil => exact absurd hb (splitNl_ne_nil b)
      | cons l ls => rw [List.nil_append, hb]; rfl
  | cons c cs ih =>
      rw [List.mem_cons] at h
      push_neg at h
      obtain ⟨h1, h2⟩ := h
      simp only [List.cons_append, splitNl, List.append_eq]
      rw [if_neg fun e => h1 e.symm, ih h2]
      cases hb : splitNl b with
      | nil => exact absurd hb (splitNl_ne_nil b)
      | cons l ls => simp [consHead]

/-- A newline-free line followed by a newline separator splits off whole. -/
theorem splitNl_line_cons (x b : List Char) (h : '\n' ∉ x) :
    splitNl (x ++ '\n' :: b) = x :: splitNl b := by
  rw [splitNl_append x _ h]
  have hnl : splitNl ('\n' :: b) = [] :: splitNl b := by simp [splitNl]
  rw [hnl]
  simp [consHead]

/-- Splitting inverts `mkText` on newline-free lines. -/
theorem splitNl_mkText (l : List Char) (ls : List (List Char))
    (h : ∀ x ∈ l :: ls, '\n' ∉ x) :
    splitNl (mkText (l :: ls)) = l :: ls := by
  induction ls generalizing l with
  | nil => exact splitNl_no_newline l (h l (by simp))
  | cons l' ls' ih =>
      simp only [mkText]
      rw [splitNl_line_cons l _ (h l (by simp)),
        ih l' fun x hx => h x (List.mem_cons_of_mem l hx)]

/-- C8 counterexample: on a concrete record the printed block has five
lines prefixed `"> "`, not the four the claim asserts. -/
theorem c8_counterexample :
    ((print_weather_info ⟨[⟨"x"⟩], ⟨0, 1, 2⟩, ⟨3⟩, "a"⟩).map promptedLineCount).getD 0 = 5 := by
  decide

/-- C8 amended: for every record whose rendered fields are newline-free,
the printed block is the uppercased city name in bold bright-white
surrounded by blank lines, then FIVE lines prefixed `> Label: value` —
weather description, temperature, pressure (hPa), humidity (%), wind speed
(m/s) — with the numeric values styled green-bold, then trailing blank
lines. -/
theorem c8_amended_block_layout :
    ∀ (name desc : String) (t p hum w : ℚ) (rest : List Weather),
      '\n' ∉ (toUpperStr name).data →
      '\n' ∉ (get_description_emoji_and_color desc).text.data →
      '\n' ∉ (get_temp_emoji t).text.data →
      '\n' ∉ (fmtF64 p).data →
      '\n' ∉ (fmtF64 hum).data →
      '\n' ∉ (fmtF64 w).data →
      ∃ segs,
        print_weather_info ⟨⟨desc⟩ :: rest, ⟨t, p, hum⟩, ⟨w⟩, name⟩ = some segs ∧
        linesOfSegs segs =
          [[], [], (toUpperStr name).data, [],
           "> Weather: ".data ++ (get_description_emoji_and_color desc).text.data,
           "> Temperature: ".data ++ (get_temp_emoji t).text.data,
           "> Pressure: ".data ++ (fmtF64 p).data ++ " hPa".data,
           "> Humidity: ".data ++ (fmtF64 hum).data ++ "%".data,
           "> Wind speed: ".data ++ (fmtF64 w).data ++ " m/s".data,
           [], [], []] ∧
        ⟨toUpperStr name, Color.brightWhite, true⟩ ∈ segs ∧
        ⟨fmtF64 p, Color.green, true⟩ ∈ segs ∧
        ⟨fmtF64 hum, Color.green, true⟩ ∈ segs ∧
        ⟨fmtF64 w, Color.green, true⟩ ∈ segs := by
  intro name desc t p hum w rest hn hd ht hp hh hw
  refine
    ⟨[ColoredString.plain "\n\n", ⟨toUpperStr name, Color.brightWhite, true⟩,
      ColoredString.plain "\n", ColoredString.plain "\n"] ++
     [ColoredString.plain "> Weather: ", get_description_emoji_and_color desc,
      ColoredString.plain "\n"] ++
     [ColoredString.plain "> Temperature: ", get_temp_emoji t,
      ColoredString.plain "\n"] ++
     [ColoredString.plain "> Pressure: ", ⟨fmtF64 p, Color.green, true⟩,
      ColoredString.plain " hPa", ColoredString.plain "\n"] ++
     [ColoredString.plain "> Humidity: ", ⟨fmtF64 hum, Color.green, true⟩,
      ColoredString.plain "%", ColoredString.plain "\n"] ++
     [ColoredString.plain "> Wind speed: ", ⟨fmtF64 w, Color.green, true⟩,
      ColoredString.plain " m/s", ColoredString.plain "\n"] ++
     [ColoredString.plain "\n", ColoredString.plain "\n"],
     rfl, ?_, by simp, by simp, by simp, by simp⟩
  rw [linesOfSegs]
  have htext :
      textOfSegs
        ([ColoredString.plain "\n\n", ⟨toUpperStr name, Color.brightWhite, true⟩,
          ColoredString.plain "\n", ColoredString.plain "\n"] ++
         [ColoredString.plain "> Weather: ", get_description_emoji_and_color desc,
          ColoredString.plain "\n"] ++
         [ColoredString.plain "> Temperature: ", get_temp_emoji t,
          ColoredString.plain "\n"] ++
         [ColoredString.plain "> Pressure: ", ⟨fmtF64 p, Color.green, true⟩,
          ColoredString.plain " hPa", ColoredString.plain "\n"] ++
         [ColoredString.plain "> Humidity: ", ⟨fmtF64 hum, Color.green, true⟩,
          ColoredString.plain "%", ColoredString.plain "\n"] ++
         [ColoredString.plain "> Wind speed: ", ⟨fmtF64 w, Color.green, true⟩,
          ColoredString.plain " m/s", ColoredString.plain "\n"] ++
         [ColoredString.plain "\n", ColoredString.plain "\n"]) =
      mkText
        [[], [], (toUpperStr name).data, [],
         "> Weather: ".data ++ (get_description_emoji_and_color desc).text.data,
         "> Temperature: ".data ++ (get_temp_emoji t).text.data,
         "> Pressure: ".data ++ (fmtF64 p).data ++ " hPa".data,
         "> Humidity: ".data ++ (fmtF64 hum).data ++ "%".data,
         "> Wind speed: ".data ++ (fmtF64 w).data ++ " m/s".data,
         [], [], []] := by
    simp only [textOfSegs, mkText, ColoredString.plain, List.map_cons, List.map_nil,
      List.map_append, List.flatten_cons, List.flatten_nil, List.flatten_append,
      show ("\n\n".data : List Char) = ['\n', '\n'] from rfl,
      show ("\n".data : List Char) = ['\n'] from rfl,
      List.append_assoc, List.cons_append, List.nil_append, List.append_nil]
  rw [htext]
  apply splitNl_mkText
  intro x hx
  simp only [List.mem_cons, List.not_mem_nil, or_false] at hx
  rcases hx with rfl | rfl | rfl | rfl | rfl | rfl | rfl | rfl | rfl | rfl | rfl | rfl
  · exact List.not_mem_nil _
  · exact List.not_mem_nil _
  · exact hn
  · exact List.not_mem_nil _
  · simp only [List.mem_append]
    rintro (h | h)
    · exact absurd h (by decide)
    · exact hd h
  · simp only [List.mem_append]
    rintro (h | h)
    · exact absurd h (by decide)
    · exact ht h
  · simp only [List.mem_append]
    rintro ((h | h) | h)
    · exact absurd h (by decide)
    · exact hp h
    · exact absurd h (by decide)
  · simp only [List.mem_append]
    rintro ((h | h) | h)
    · exact absurd h (by decide)
    · exact hh h
    · exact absurd h (by decide)
  · simp only [List.mem_append]
    rintro ((h | h) | h)
    · exact absurd h (by decide)
    · exact hw h
    · exact absurd h (by decide)
  · exact List.not_mem_nil _
  · exact List.not_mem_nil _
  · exact List.not_mem_nil _

/-- C8 amended witness: the layout theorem applied to a concrete record. -/
theorem c8_amended_block_layout_witness :
    ∃ segs,
      print_weather_info ⟨⟨"clear sky"⟩ :: [], ⟨22, 1013, 60⟩, ⟨3⟩, "lisbon"⟩ = some segs ∧
      linesOfSegs segs =
        [[], [], (toUpperStr "lisbon").data, [],
         "> Weather: ".data ++ (get_description_emoji_and_color "clear sky").text.data,
         "> Temperature: ".data ++ (get_temp_emoji 22).text.data,
         "> Pressure: ".data ++ (fmtF64 1013).data ++ " hPa".data,
         "> Humidity: ".data ++ (fmtF64 60).data ++ "%".data,
         "> Wind speed: ".data ++ (fmtF64 3).data ++ " m/s".data,
         [], [], []] ∧
      ⟨toUpperStr "lisbon", Color.brightWhite, true⟩ ∈ segs ∧
      ⟨fmtF64 1013, Color.green, true⟩ ∈ segs ∧
      ⟨fmtF64 60, Color.green, true⟩ ∈ segs ∧
      ⟨fmtF64 3, Color.green, true⟩ ∈ segs :=
  c8_amended_block_layout "lisbon" "clear sky" 22 1013 60 3 []
    (by decide) (by decide) (by decide) (by decide) (by decide) (by decide)
